import Mathlib

/-!
Shallow embedding of the expense-module core (models.py / views.py):
expense numbering, tax/total derivation, approval gating, mark-paid,
and supplier aggregate recomputation.

Conventions of the embedding:
- money values (`amount`, `tax_amount`, `total_amount`, `approval_threshold`)
  are integers in cents: the Python code works on `Decimal` values quantized
  to 2 fraction digits;
- `tax_rate` is an integer in hundredths of a percent (21.00% is 2100), the
  field has `decimal_places=2`;
- dates are abstract day numbers (`Nat`), timestamps abstract instants
  (`Nat`); the clock collaborator (`timezone.now()`) is passed in explicitly;
- the database is an explicit `List Expense`; Django querysets become list
  filters; `cls.all_objects` (used by the number generator) sees soft-deleted
  rows too, so no `is_deleted` filter appears there, while
  `Supplier.update_totals` filters `is_deleted=False` exactly as the source;
- Python `Decimal.quantize(Decimal('0.01'))` uses the default context
  rounding ROUND_HALF_EVEN; the operands (10-digit, 2-fraction-digit decimals)
  stay far below the 28-digit context precision, so every intermediate
  product/quotient in `amount * tax_rate / 100` is exact and only the final
  quantize rounds.
-/

/-- Expense.STATUS_CHOICES in models.py. -/
inductive Status where
  | draft
  | pending
  | approved
  | paid
  | rejected
  deriving DecidableEq

/-- ExpenseSettings (models.py): the per-hub configuration fields the core
reads. `number_pfx` embeds the model field `number_prefix`. -/
structure ExpenseSettings where
  require_approval : Bool
  approval_threshold : Int
  default_tax_rate : Int
  auto_numbering : Bool
  number_pfx : String
  deriving DecidableEq

/-- Expense (models.py): the fields the core reads or writes. `supplier` and
`approved_by` are weak references, modelled as optional ids. -/
structure Expense where
  expense_number : String
  amount : Int
  tax_rate : Int
  tax_amount : Int
  total_amount : Int
  expense_date : Nat
  status : Status
  supplier : Option Nat
  approved_by : Option Nat
  approved_at : Option Nat
  paid_at : Option Nat
  is_deleted : Bool
  hub_id : Nat
  deriving DecidableEq

/-- Supplier (models.py): only the derived aggregate fields matter to the
claims; `update_totals` writes exactly these two. -/
structure Supplier where
  total_spent : Int
  last_purchase_date : Option Nat
  deriving DecidableEq

/-- Rounding n / d (d > 0) to the nearest integer, ties to the even
neighbour: the behaviour of `Decimal.quantize` under the default context
rounding ROUND_HALF_EVEN, expressed on the exact scaled integer n. -/
def quantizeHalfEven (n d : Int) : Int :=
  if 2 * (n % d) < d then n / d
  else if d < 2 * (n % d) then n / d + 1
  else if (n / d) % 2 = 0 then n / d else n / d + 1

/-- models.py line 327: `(self.amount * self.tax_rate / Decimal('100')).quantize(Decimal('0.01'))`.
With amount in cents and tax_rate in hundredths of a percent the exact tax in
cents is `amount * tax_rate / 10000`; the quantize rounds it half-even. -/
def calcTax (amount taxRate : Int) : Int :=
  quantizeHalfEven (amount * taxRate) 10000

-- ---------------------------------------------------------------------------
-- String helpers mirroring the Python operations used by the number generator
-- ---------------------------------------------------------------------------

/-- Python `str.startswith`, on char lists. -/
def listStarts : List Char → List Char → Bool
  | [], _ => true
  | _ :: _, [] => false
  | p :: ps, c :: cs => p == c && listStarts ps cs

/-- Python `expense_number.startswith(full_prefix)` (the Django
`__startswith` lookup). -/
def strStarts (pat s : String) : Bool :=
  listStarts pat.toList s.toList

/-- Lexicographic comparison by code point, the comparison Python uses on
`str` and the one `order_by('-expense_number')` performs on the stored
ASCII numbers. -/
def listLexLt : List Char → List Char → Bool
  | [], [] => false
  | [], _ :: _ => true
  | _ :: _, [] => false
  | a :: as, b :: bs => if a == b then listLexLt as bs else a.toNat < b.toNat

/-- String version of `listLexLt`. -/
def strLtB (s t : String) : Bool :=
  listLexLt s.toList t.toList

/-- The larger of two strings under `strLtB`. -/
def maxStr (a b : String) : String :=
  if strLtB a b then b else a

/-- models.py line 311: `.order_by('-expense_number').first()` — the
lexicographically greatest expense number among the candidates, `none` when
there is no candidate. -/
def lexMax? : List String → Option String
  | [] => none
  | s :: rest => some (rest.foldl maxStr s)

/-- Python `s.split('-')`, on char lists: split at every `'-'`, keeping
empty segments. -/
def splitDashAux : List Char → List Char → List (List Char)
  | [], cur => [cur.reverse]
  | '-' :: rest, cur => cur.reverse :: splitDashAux rest []
  | c :: rest, cur => splitDashAux rest (c :: cur)

/-- models.py line 315: `expense_number.split('-')[-1]` — the segment after
the final dash. -/
def lastDashSegment (s : String) : String :=
  String.mk ((splitDashAux s.toList []).getLastD [])

/-- ASCII whitespace for the leading/trailing strip `int()` performs. -/
def isSpaceChar (c : Char) : Bool :=
  c == ' ' || c == '\t' || c == '\n' || c == '\r' || c == '\x0b' || c == '\x0c'

/-- Strip whitespace from both ends. -/
def trimChars (cs : List Char) : List Char :=
  ((cs.dropWhile isSpaceChar).reverse.dropWhile isSpaceChar).reverse

/-- Digit accumulator for `pyDigits`: after a first digit, each further
character is a digit or a single underscore followed by a digit (the grammar
of Python decimal int literals accepted by `int()`). -/
def pyDigitsAux : List Char → Nat → Option Nat
  | [], acc => some acc
  | '_' :: c :: rest, acc =>
      if c.isDigit then pyDigitsAux rest (acc * 10 + (c.toNat - 48)) else none
  | ['_'], _ => none
  | c :: rest, acc =>
      if c.isDigit then pyDigitsAux rest (acc * 10 + (c.toNat - 48)) else none

/-- A nonempty digit run (underscore-separated) and its value. -/
def pyDigits : List Char → Option Nat
  | [] => none
  | c :: rest => if c.isDigit then pyDigitsAux rest (c.toNat - 48) else none

/-- Python `int(s)`: optional surrounding whitespace, optional sign, decimal
digits. `none` models the `ValueError` caught at models.py line 317.
(Non-ASCII digit forms accepted by CPython are out of scope; the generator
only ever feeds it ASCII.) -/
def pyInt (s : String) : Option Int :=
  match trimChars s.toList with
  | '+' :: rest => (pyDigits rest).map (fun n => (n : Int))
  | '-' :: rest => (pyDigits rest).map (fun n => -(n : Int))
  | cs => (pyDigits cs).map (fun n => (n : Int))

/-- Left-pad with zeros to width w. -/
def padZeros (w : Nat) (s : String) : String :=
  if w ≤ s.length then s else String.mk (List.replicate (w - s.length) '0') ++ s

/-- Python `f"{n:04d}"`: 4-character zero padding, the sign counting toward
the width, wider numbers kept whole. -/
def fmt04 (n : Int) : String :=
  if n < 0 then "-" ++ padZeros 3 (toString n.natAbs)
  else padZeros 4 (toString n.natAbs)

-- ---------------------------------------------------------------------------
-- Expense.generate_expense_number and Expense.save (models.py 301-347)
-- ---------------------------------------------------------------------------

/-- models.py lines 308-311: the expense numbers of the hub starting with the
period key, over `all_objects` (soft-deleted rows included). -/
def hubNumbersWithKey (db : List Expense) (hubId : Nat) (key : String) : List String :=
  (db.filter (fun e => e.hub_id == hubId && strStarts key e.expense_number)).map
    (fun e => e.expense_number)

/-- models.py lines 313-320: one plus the parsed trailing integer of the
selected number; 1 on absence or parse failure. -/
def nextSeqFrom : Option String → Int
  | some s =>
      match pyInt (lastDashSegment s) with
      | some lastNum => lastNum + 1
      | none => 1
  | none => 1

/-- Expense.generate_expense_number (models.py 301-322). `datePart` stands
for `timezone.now().strftime('%Y%m%d')` — the clock collaborator made
explicit. -/
def generate_expense_number (db : List Expense) (hubId : Nat) (pfx : String)
    (datePart : String) : String :=
  pfx ++ "-" ++ datePart ++ "-" ++
    fmt04 (nextSeqFrom (lexMax? (hubNumbersWithKey db hubId (pfx ++ "-" ++ datePart))))

/-- The collaborators `Expense.save` consults: the settings row (`none`
models the `except Exception: pass` at models.py 341 — the lookup raising),
the stored expenses, and the clock's current date string. -/
structure SaveCtx where
  settings : Option ExpenseSettings
  db : List Expense
  datePart : String

/-- models.py lines 326-332: `if self.amount:` — recompute `tax_amount` and
`total_amount` only when `amount` is truthy, i.e. nonzero. The second
quantize acts on a sum of two 2-fraction-digit values and is the identity,
so `total_amount` is the exact sum in cents. -/
def recalcAmounts (e : Expense) : Expense :=
  if e.amount = 0 then e
  else
    { e with
      tax_amount := calcTax e.amount e.tax_rate,
      total_amount := e.amount + calcTax e.amount e.tax_rate }

/-- models.py lines 336-342: prefix selection. Starts at `'EXP'`; when the
settings lookup succeeds and `auto_numbering` is set, `number_prefix or
'EXP'` (the configured value unless empty); a raised lookup leaves `'EXP'`. -/
def savePfx : Option ExpenseSettings → String
  | some st =>
      if st.auto_numbering = true then
        (if st.number_pfx = "" then "EXP" else st.number_pfx)
      else "EXP"
  | none => "EXP"

/-- models.py lines 334-345: `if not self.expense_number:` — generate a
number only when the current value is falsy (empty). -/
def assignNumber (e : Expense) (ctx : SaveCtx) : Expense :=
  if e.expense_number = "" then
    { e with
      expense_number :=
        generate_expense_number ctx.db e.hub_id (savePfx ctx.settings) ctx.datePart }
  else e

/-- Expense.save (models.py 324-347): recompute the derived amounts, then
assign a number when unset, then persist (`super().save`). -/
def Expense.save (e : Expense) (ctx : SaveCtx) : Expense :=
  assignNumber (recalcAmounts e) ctx

-- ---------------------------------------------------------------------------
-- Supplier.update_totals (models.py 159-170)
-- ---------------------------------------------------------------------------

/-- models.py lines 162-164: the supplier's related expenses with
`is_deleted=False, status='paid'`. -/
def paidExpensesOf (db : List Expense) (sid : Nat) : List Expense :=
  db.filter (fun e =>
    e.supplier == some sid && e.is_deleted == false && e.status == Status.paid)

/-- The SQL `Max` aggregate over a list of day numbers: `None` on an empty
set. -/
def natMax? : List Nat → Option Nat
  | [] => none
  | d :: rest => some (rest.foldl Nat.max d)

/-- Supplier.update_totals (models.py 159-170): `Sum('total_amount')` with
the `or Decimal('0.00')` fallback is the plain list sum (the SQL aggregate is
`None` exactly on an empty set, and a genuine zero sum is replaced by the
same value), `Max('expense_date')` is `natMax?`. -/
def Supplier.update_totals (sup : Supplier) (db : List Expense) (sid : Nat) : Supplier :=
  { sup with
    total_spent := ((paidExpensesOf db sid).map (fun e => e.total_amount)).sum,
    last_purchase_date := natMax? ((paidExpensesOf db sid).map (fun e => e.expense_date)) }

-- ---------------------------------------------------------------------------
-- expense_approve and expense_mark_paid (views.py 283-337)
-- ---------------------------------------------------------------------------

/-- Outcome of an action view: `ok` carries the persisted expense, `declined`
the reported policy violation (`JsonResponse success=False` with a message —
a declined operation, not a raised fault). -/
inductive ActionResult where
  | ok (e : Expense)
  | declined (msg : String)
  deriving DecidableEq

/-- views.py line 295. -/
def onlyDraftPendingMsg : String :=
  "Only draft or pending expenses can be approved."

/-- views.py line 324. -/
def requiresApprovalMsg : String :=
  "This expense requires approval before it can be marked as paid."

/-- expense_approve (views.py 283-307): decline unless the status is draft
or pending; otherwise set status, approver and timestamp and save
(`update_fields` persists exactly those). -/
def expense_approve (e : Expense) (actor : Option Nat) (now : Nat) : ActionResult :=
  if ¬ (e.status = Status.draft ∨ e.status = Status.pending) then
    ActionResult.declined onlyDraftPendingMsg
  else
    ActionResult.ok
      { e with status := Status.approved, approved_by := actor, approved_at := some now }

/-- expense_mark_paid (views.py 310-337), the gate and transition:
`if settings.require_approval and expense.status not in ('approved',)` and
inside it `if expense.total_amount > settings.approval_threshold or
settings.approval_threshold == Decimal('0.00')` decline; every other path
falls through to `status='paid'; paid_at=now` (persisted via
`update_fields=['status', 'paid_at', 'updated_at']`). -/
def expense_mark_paid (e : Expense) (st : ExpenseSettings) (now : Nat) : ActionResult :=
  if st.require_approval = true ∧ e.status ≠ Status.approved then
    if st.approval_threshold < e.total_amount ∨ st.approval_threshold = 0 then
      ActionResult.declined requiresApprovalMsg
    else
      ActionResult.ok { e with status := Status.paid, paid_at := some now }
  else
    ActionResult.ok { e with status := Status.paid, paid_at := some now }

-- ---------------------------------------------------------------------------
-- Helper lemmas
-- ---------------------------------------------------------------------------

theorem strAppend_data (s t : String) : (s ++ t).data = s.data ++ t.data := by
  cases s; cases t; rfl

theorem append_dash_ne_empty (a c : String) : a ++ "-" ++ c ≠ "" := by
  intro hc
  have hd : (a ++ "-" ++ c).data = ([] : List Char) := by rw [hc]
  rw [strAppend_data, strAppend_data] at hd
  have h1 := (List.append_eq_nil.mp hd).1
  have h2 := (List.append_eq_nil.mp h1).2
  exact absurd h2 (by decide)

theorem gen_ne_empty (db : List Expense) (hubId : Nat) (pfx datePart : String) :
    generate_expense_number db hubId pfx datePart ≠ "" := by
  unfold generate_expense_number
  exact append_dash_ne_empty (pfx ++ "-" ++ datePart) _

theorem recalc_keeps_number (e : Expense) :
    (recalcAmounts e).expense_number = e.expense_number := by
  unfold recalcAmounts
  by_cases hc : e.amount = 0 <;> simp [hc]

theorem recalc_keeps_hub (e : Expense) : (recalcAmounts e).hub_id = e.hub_id := by
  unfold recalcAmounts
  by_cases hc : e.amount = 0 <;> simp [hc]

theorem recalc_keeps_inputs (e : Expense) :
    (recalcAmounts e).amount = e.amount ∧ (recalcAmounts e).tax_rate = e.tax_rate := by
  unfold recalcAmounts
  by_cases hc : e.amount = 0 <;> simp [hc]

theorem recalc_amounts_eq (e : Expense) (h : e.amount ≠ 0) :
    (recalcAmounts e).tax_amount = calcTax e.amount e.tax_rate
    ∧ (recalcAmounts e).total_amount = e.amount + calcTax e.amount e.tax_rate := by
  unfold recalcAmounts
  rw [if_neg h]
  exact ⟨rfl, rfl⟩

theorem assignNumber_amounts (e : Expense) (ctx : SaveCtx) :
    (assignNumber e ctx).amount = e.amount
    ∧ (assignNumber e ctx).tax_rate = e.tax_rate
    ∧ (assignNumber e ctx).tax_amount = e.tax_amount
    ∧ (assignNumber e ctx).total_amount = e.total_amount := by
  unfold assignNumber
  by_cases hc : e.expense_number = "" <;> simp [hc]

theorem le_foldl_max (l : List Nat) (a : Nat) : a ≤ l.foldl Nat.max a := by
  induction l generalizing a with
  | nil => exact Nat.le_refl a
  | cons x xs ih =>
      rw [List.foldl_cons]
      exact Nat.le_trans (Nat.le_max_left a x) (ih (Nat.max a x))

theorem mem_le_foldl_max (l : List Nat) (a : Nat) :
    ∀ x ∈ l, x ≤ l.foldl Nat.max a := by
  induction l generalizing a with
  | nil => intro x hx; exact absurd hx (List.not_mem_nil x)
  | cons y ys ih =>
      intro x hx
      rw [List.foldl_cons]
      rcases List.mem_cons.mp hx with h | h
      · subst h
        exact Nat.le_trans (Nat.le_max_right a x) (le_foldl_max ys (Nat.max a x))
      · exact ih (Nat.max a y) x h

theorem foldl_max_mem (l : List Nat) (a : Nat) :
    l.foldl Nat.max a = a ∨ l.foldl Nat.max a ∈ l := by
  induction l generalizing a with
  | nil => exact Or.inl rfl
  | cons y ys ih =>
      rw [List.foldl_cons]
      have hm : Nat.max a y = a ∨ Nat.max a y = y := by
        rcases Nat.le_total a y with hle | hle
        · exact Or.inr (Nat.max_eq_right hle)
        · exact Or.inl (Nat.max_eq_left hle)
      rcases ih (Nat.max a y) with h | h
      · rcases hm with hm | hm
        · exact Or.inl (h.trans hm)
        · exact Or.inr (by rw [h, hm]; exact List.mem_cons_self y ys)
      · exact Or.inr (List.mem_cons_of_mem y h)

theorem natMax_spec (l : List Nat) :
    (∀ m, natMax? l = some m → m ∈ l ∧ ∀ d ∈ l, d ≤ m)
    ∧ (natMax? l = none → l = []) := by
  cases l with
  | nil =>
      refine ⟨?_, fun _ => rfl⟩
      intro m h
      simp [natMax?] at h
  | cons d ds =>
      refine ⟨?_, ?_⟩
      · intro m h
        simp only [natMax?, Option.some.injEq] at h
        subst h
        refine ⟨?_, ?_⟩
        · rcases foldl_max_mem ds d with h | h
          · rw [h]; exact List.mem_cons_self d ds
          · exact List.mem_cons_of_mem d h
        · intro x hx
          rcases List.mem_cons.mp hx with h | h
          · subst h; exact le_foldl_max ds x
          · exact mem_le_foldl_max ds d x h
      · intro h
        simp [natMax?] at h

-- ---------------------------------------------------------------------------
-- Concrete fixtures used by witnesses and counterexamples
-- ---------------------------------------------------------------------------

/-- A save context with no settings row and an empty store. -/
def baseCtx : SaveCtx := { settings := none, db := [], datePart := "20260101" }

/-- A draft expense of 10.00 at 21.00% with a number already assigned. -/
def c2start : Expense :=
  { expense_number := "EXP-20250101-0001", amount := 1000, tax_rate := 2100,
    tax_amount := 0, total_amount := 0, expense_date := 10, status := Status.draft,
    supplier := none, approved_by := none, approved_at := none, paid_at := none,
    is_deleted := false, hub_id := 1 }

/-- The expense after a first save followed by editing the amount to 0.00. -/
def c2zeroed : Expense := { Expense.save c2start baseCtx with amount := 0 }

/-- An expense whose number is already set, for the immutability witness. -/
def c8keep : Expense := { c2start with expense_number := "KEEP-ME-7" }

/-- A zero-amount expense carrying previously stored derived values. -/
def c9zero : Expense :=
  { c2start with amount := 0, tax_amount := 210, total_amount := 1210 }

/-- Settings with auto_numbering disabled and a configured custom value in
`number_prefix`. -/
def st10 : ExpenseSettings :=
  { require_approval := false, approval_threshold := 0, default_tax_rate := 2100,
    auto_numbering := false, number_pfx := "ZZZ" }

/-- Save context carrying `st10`. -/
def ctx10 : SaveCtx := { settings := some st10, db := [], datePart := "20260101" }

/-- An unnumbered expense to be saved under `ctx10`. -/
def e10 : Expense := { c2start with expense_number := "" }

/-- An approved expense of 100.00 at 21.00% (total 121.00) linked to
supplier 7, dated day 42. -/
def e7 : Expense :=
  { expense_number := "EXP-20260101-0001", amount := 10000, tax_rate := 2100,
    tax_amount := 2100, total_amount := 12100, expense_date := 42,
    status := Status.approved, supplier := some 7, approved_by := some 3,
    approved_at := some 50, paid_at := none, is_deleted := false, hub_id := 1 }

/-- What `expense_mark_paid` persists for `e7` at instant 99. -/
def e7paid : Expense := { e7 with status := Status.paid, paid_at := some 99 }

/-- Settings requiring approval for every amount (threshold 0). -/
def st7 : ExpenseSettings :=
  { require_approval := true, approval_threshold := 0, default_tax_rate := 2100,
    auto_numbering := true, number_pfx := "EXP" }

/-- A supplier with no recorded purchases yet. -/
def sup7 : Supplier := { total_spent := 0, last_purchase_date := none }

/-- An expense row carrying a given number in hub 1, for the numbering
scenarios. -/
def rollExp (num : String) : Expense :=
  { expense_number := num, amount := 100, tax_rate := 2100, tax_amount := 21,
    total_amount := 121, expense_date := 1, status := Status.draft,
    supplier := none, approved_by := none, approved_at := none, paid_at := none,
    is_deleted := false, hub_id := 1 }

/-- Hub 1 store holding the day's numbers 9999 and 10000: the state reached
right after the sequence first crosses four digits. -/
def dbRoll : List Expense :=
  [rollExp "EXP-20260101-9999", rollExp "EXP-20260101-10000"]

/-- The greatest Int of a list, `none` on an empty list. -/
def intMax? : List Int → Option Int
  | [] => none
  | d :: rest => some (rest.foldl max d)

/-- Stated from the claim's words, for comparison with the source generator:
the next number from the numerically highest trailing sequence — parse every
candidate's segment after the final dash, take the greatest value, add one
(1 when nothing parses or nothing exists). -/
def nextNumberByNumericMax (db : List Expense) (hubId : Nat) (pfx datePart : String) :
    String :=
  pfx ++ "-" ++ datePart ++ "-" ++
    fmt04 (match intMax? ((hubNumbersWithKey db hubId (pfx ++ "-" ++ datePart)).filterMap
        (fun s => pyInt (lastDashSegment s))) with
      | some k => k + 1
      | none => 1)

/-- Stated from the claim's words, for comparison with `calcTax`: rounding
half away from zero (half-up) to 2 decimal places. -/
def taxHalfUpClaim (amount taxRate : Int) : Int :=
  if 0 ≤ amount * taxRate then (2 * (amount * taxRate) + 10000) / 20000
  else -((2 * (-(amount * taxRate)) + 10000) / 20000)

-- ---------------------------------------------------------------------------
-- C1: the mark_paid approval gate
-- ---------------------------------------------------------------------------

/-- C1. For every expense, settings and instant, `expense_mark_paid` declines
exactly when `require_approval` is set, the status is not `approved`, and the
total exceeds the threshold or the threshold is zero; every permitted call
persists `status='paid'` with `paid_at` set to the current instant. In
particular it always succeeds when `require_approval` is false, and a
non-approved expense under a positive threshold is permitted. -/
theorem c1_mark_paid_gate (e : Expense) (st : ExpenseSettings) (now : Nat) :
    expense_mark_paid e st now =
      if st.require_approval = true ∧ e.status ≠ Status.approved ∧
          (st.approval_threshold < e.total_amount ∨ st.approval_threshold = 0) then
        ActionResult.declined requiresApprovalMsg
      else
        ActionResult.ok { e with status := Status.paid, paid_at := some now } := by
  simp only [expense_mark_paid]
  split_ifs with h1 h2 h3 <;> first | rfl | (exfalso; tauto)

-- ---------------------------------------------------------------------------
-- C6: the approve transition
-- ---------------------------------------------------------------------------

/-- C6. For every expense, actor and instant, `expense_approve` succeeds
exactly when the status is `draft` or `pending`, persisting
`status='approved'` with the actor and timestamp; from `approved`, `paid` or
`rejected` (the only other statuses) it returns the declined result — a
reported policy violation, not a raised fault. -/
theorem c6_approve_gate (e : Expense) (actor : Option Nat) (now : Nat) :
    expense_approve e actor now =
      if e.status = Status.draft ∨ e.status = Status.pending then
        ActionResult.ok
          { e with status := Status.approved, approved_by := actor,
                   approved_at := some now }
      else
        ActionResult.declined onlyDraftPendingMsg := by
  by_cases h : e.status = Status.draft ∨ e.status = Status.pending
  · unfold expense_approve
    rw [if_neg (not_not_intro h), if_pos h]
  · unfold expense_approve
    rw [if_pos h, if_neg h]

-- ---------------------------------------------------------------------------
-- C7: supplier aggregate recomputation
-- ---------------------------------------------------------------------------

/-- C7. For every supplier, store and supplier id, `update_totals` writes
`total_spent` equal to the sum of `total_amount` over the supplier's
non-deleted paid expenses, and `last_purchase_date` equal to the greatest
`expense_date` among them (none when there are none). -/
theorem c7_update_totals_spec (sup : Supplier) (db : List Expense) (sid : Nat) :
    (Supplier.update_totals sup db sid).total_spent
        = ((paidExpensesOf db sid).map (fun e => e.total_amount)).sum
    ∧ (∀ m, (Supplier.update_totals sup db sid).last_purchase_date = some m →
        m ∈ (paidExpensesOf db sid).map (fun e => e.expense_date)
        ∧ ∀ e ∈ paidExpensesOf db sid, e.expense_date ≤ m)
    ∧ ((Supplier.update_totals sup db sid).last_purchase_date = none →
        paidExpensesOf db sid = []) := by
  refine ⟨rfl, ?_, ?_⟩
  · intro m h
    simp only [Supplier.update_totals] at h
    have hs := (natMax_spec ((paidExpensesOf db sid).map (fun e => e.expense_date))).1 m h
    exact ⟨hs.1, fun e he => hs.2 e.expense_date (List.mem_map_of_mem _ he)⟩
  · intro h
    simp only [Supplier.update_totals] at h
    have hs := (natMax_spec ((paidExpensesOf db sid).map (fun e => e.expense_date))).2 h
    exact List.map_eq_nil_iff.mp hs

/-- C7 witness. Marking the approved expense `e7` (100.00 net, 21.00% tax,
total 121.00, dated day 42) paid succeeds, and recomputing supplier 7 over
the resulting store yields total_spent 121.00 and last_purchase_date day 42. -/
theorem c7_update_totals_witness :
    expense_mark_paid e7 st7 99 = ActionResult.ok e7paid
    ∧ (Supplier.update_totals sup7 [e7paid] 7).total_spent = 12100
    ∧ (Supplier.update_totals sup7 [e7paid] 7).last_purchase_date = some 42 := by
  refine ⟨by decide, ?_, by decide⟩
  rw [(c7_update_totals_spec sup7 [e7paid] 7).1]
  decide

-- ---------------------------------------------------------------------------
-- C2: the tax/total invariant after save
-- ---------------------------------------------------------------------------

/-- C2 counterexample. A first save of a 10.00 expense at 21.00% stores
tax 2.10; editing the amount to 0.00 and saving again leaves tax_amount at
2.10 while the claimed invariant demands round(0 * rate / 100, 2) = 0.00 —
so the invariant does not hold after every save regardless of the amount. -/
theorem c2_zero_amount_counterexample :
    (Expense.save c2zeroed baseCtx).amount = 0
    ∧ (Expense.save c2zeroed baseCtx).tax_amount = 210
    ∧ calcTax 0 (Expense.save c2zeroed baseCtx).tax_rate = 0
    ∧ (210 : Int) ≠ 0 := by decide

/-- C2 amended. For every expense whose amount is nonzero, after a save the
persisted state satisfies tax_amount = round(amount * tax_rate / 100, 2) and
total_amount = amount + tax_amount, and further saves (any contexts) leave
both derived fields unchanged. -/
theorem c2_invariant_nonzero_amount (e : Expense) (ctx ctx2 : SaveCtx)
    (h : e.amount ≠ 0) :
    (Expense.save e ctx).tax_amount = calcTax e.amount e.tax_rate
    ∧ (Expense.save e ctx).total_amount = e.amount + calcTax e.amount e.tax_rate
    ∧ (Expense.save (Expense.save e ctx) ctx2).tax_amount
        = (Expense.save e ctx).tax_amount
    ∧ (Expense.save (Expense.save e ctx) ctx2).total_amount
        = (Expense.save e ctx).total_amount := by
  have hr := recalc_amounts_eq e h
  have ha := assignNumber_amounts (recalcAmounts e) ctx
  have htax : (Expense.save e ctx).tax_amount = calcTax e.amount e.tax_rate :=
    ha.2.2.1.trans hr.1
  have htot : (Expense.save e ctx).total_amount
      = e.amount + calcTax e.amount e.tax_rate :=
    ha.2.2.2.trans hr.2
  have hamt : (Expense.save e ctx).amount = e.amount :=
    (assignNumber_amounts (recalcAmounts e) ctx).1.trans (recalc_keeps_inputs e).1
  have hrate : (Expense.save e ctx).tax_rate = e.tax_rate :=
    (assignNumber_amounts (recalcAmounts e) ctx).2.1.trans (recalc_keeps_inputs e).2
  have h2 : (Expense.save e ctx).amount ≠ 0 := by rw [hamt]; exact h
  have hr2 := recalc_amounts_eq (Expense.save e ctx) h2
  have ha2 := assignNumber_amounts (recalcAmounts (Expense.save e ctx)) ctx2
  refine ⟨htax, htot, ?_, ?_⟩
  · have key : (Expense.save (Expense.save e ctx) ctx2).tax_amount
        = calcTax (Expense.save e ctx).amount (Expense.save e ctx).tax_rate :=
      ha2.2.2.1.trans hr2.1
    rw [key, hamt, hrate, htax]
  · have key : (Expense.save (Expense.save e ctx) ctx2).total_amount
        = (Expense.save e ctx).amount
            + calcTax (Expense.save e ctx).amount (Expense.save e ctx).tax_rate :=
      ha2.2.2.2.trans hr2.2
    rw [key, hamt, hrate, htot]

/-- C2 witness. Saving the 10.00 draft at 21.00% stores tax 2.10 and total
12.10, by the amended invariant at that concrete input. -/
theorem c2_invariant_witness :
    (Expense.save c2start baseCtx).tax_amount = 210
    ∧ (Expense.save c2start baseCtx).total_amount = 1210 := by
  have h := c2_invariant_nonzero_amount c2start baseCtx baseCtx (by decide)
  exact ⟨h.1.trans (by decide), h.2.1.trans (by decide)⟩

-- ---------------------------------------------------------------------------
-- C8: expense_number immutability
-- ---------------------------------------------------------------------------

/-- C8. For every expense whose number is already set (nonempty), every save
leaves `expense_number` untouched whatever else changes; and every save
leaves the number set, so it can never return to the unset state in which a
later save would regenerate it. -/
theorem c8_number_immutable (e : Expense) (ctx : SaveCtx)
    (h : e.expense_number ≠ "") :
    (Expense.save e ctx).expense_number = e.expense_number
    ∧ (Expense.save e ctx).expense_number ≠ "" := by
  have hn := recalc_keeps_number e
  unfold Expense.save assignNumber
  rw [hn, if_neg h]
  exact ⟨hn, by rw [hn]; exact h⟩

/-- C8 witness. Saving an expense numbered "KEEP-ME-7" keeps that exact
number. -/
theorem c8_number_immutable_witness :
    (Expense.save c8keep baseCtx).expense_number = "KEEP-ME-7" :=
  ((c8_number_immutable c8keep baseCtx (by decide)).1).trans (by decide)

-- ---------------------------------------------------------------------------
-- C9: zero amount skips the recomputation
-- ---------------------------------------------------------------------------

/-- C9. For every expense whose amount is zero, a save leaves `tax_amount`
and `total_amount` exactly as stored: the `if self.amount:` guard skips the
derivation, so editing an amount down to 0.00 preserves the stale values. -/
theorem c9_zero_amount_skips_recalc (e : Expense) (ctx : SaveCtx)
    (h : e.amount = 0) :
    (Expense.save e ctx).tax_amount = e.tax_amount
    ∧ (Expense.save e ctx).total_amount = e.total_amount := by
  have hr : recalcAmounts e = e := by unfold recalcAmounts; rw [if_pos h]
  unfold Expense.save
  rw [hr]
  exact ⟨(assignNumber_amounts e ctx).2.2.1, (assignNumber_amounts e ctx).2.2.2⟩

/-- C9 witness. Saving a zero-amount expense that still stores tax 2.10 and
total 12.10 leaves both values in place. -/
theorem c9_zero_amount_witness :
    (Expense.save c9zero baseCtx).tax_amount = 210
    ∧ (Expense.save c9zero baseCtx).total_amount = 1210 := by
  have h := c9_zero_amount_skips_recalc c9zero baseCtx (by decide)
  exact ⟨h.1.trans (by decide), h.2.trans (by decide)⟩

-- ---------------------------------------------------------------------------
-- C10: numbering still happens when auto_numbering is off
-- ---------------------------------------------------------------------------

/-- C10. For every unnumbered expense saved under settings whose
`auto_numbering` is false, a number is still generated — with the hardcoded
default 'EXP' in place of the configured `number_prefix` — and the resulting
number is nonempty. -/
theorem c10_number_generated_when_auto_off (e : Expense) (ctx : SaveCtx)
    (st : ExpenseSettings) (h1 : e.expense_number = "")
    (h2 : ctx.settings = some st) (h3 : st.auto_numbering = false) :
    (Expense.save e ctx).expense_number
        = generate_expense_number ctx.db e.hub_id "EXP" ctx.datePart
    ∧ (Expense.save e ctx).expense_number ≠ "" := by
  have hp : savePfx ctx.settings = "EXP" := by
    rw [h2]; simp [savePfx, h3]
  have hn := recalc_keeps_number e
  have hh := recalc_keeps_hub e
  unfold Expense.save assignNumber
  rw [hn, if_pos h1, hp, hh]
  exact ⟨rfl, gen_ne_empty ctx.db e.hub_id "EXP" ctx.datePart⟩

/-- C10 witness. Saving an unnumbered expense while `auto_numbering` is off
and `number_prefix` is configured as "ZZZ" yields "EXP-20260101-0001": the
number is generated and uses the hardcoded 'EXP'. -/
theorem c10_number_generated_witness :
    (Expense.save e10 ctx10).expense_number = "EXP-20260101-0001" := by
  have h := c10_number_generated_when_auto_off e10 ctx10 st10 (by decide) rfl rfl
  rw [h.1]
  decide

-- ---------------------------------------------------------------------------
-- C3: which existing number the generator increments
-- ---------------------------------------------------------------------------

/-- C3 counterexample. With numbers 9999 and 10000 already stored for the
key, the numerically highest trailing sequence is 10000, so the claim
predicts "EXP-20260101-10001"; the source orders by the raw string, where
"...-9999" sorts above "...-10000", and therefore produces
"EXP-20260101-10000" — not the claimed value. -/
theorem c3_numeric_max_counterexample :
    generate_expense_number dbRoll 1 "EXP" "20260101" = "EXP-20260101-10000"
    ∧ nextNumberByNumericMax dbRoll 1 "EXP" "20260101" = "EXP-20260101-10001"
    ∧ ("EXP-20260101-10000" : String) ≠ "EXP-20260101-10001" := by decide

/-- C3 amended. For every store, tenant, prefix and reference date, when the
lexicographically greatest (plain string comparison, the order
`order_by('-expense_number')` yields) stored number with the exact
"{prefix}-{YYYYMMDD}" key has a trailing segment parsing to k, the generated
number is "{prefix}-{YYYYMMDD}-{k+1:04d}". -/
theorem c3_lexicographic_next_number (db : List Expense) (hubId : Nat)
    (pfx datePart s : String) (k : Int)
    (hmax : lexMax? (hubNumbersWithKey db hubId (pfx ++ "-" ++ datePart)) = some s)
    (hparse : pyInt (lastDashSegment s) = some k) :
    generate_expense_number db hubId pfx datePart
      = pfx ++ "-" ++ datePart ++ "-" ++ fmt04 (k + 1) := by
  unfold generate_expense_number
  rw [hmax]
  simp [nextSeqFrom, hparse]

/-- C3 witness. On the 9999/10000 store the lexicographic maximum is
"EXP-20260101-9999", whose trailing segment parses to 9999, so the generated
number is the key plus 10000. -/
theorem c3_lexicographic_witness :
    generate_expense_number dbRoll 1 "EXP" "20260101"
      = "EXP" ++ "-" ++ "20260101" ++ "-" ++ fmt04 (9999 + 1) :=
  c3_lexicographic_next_number dbRoll 1 "EXP" "20260101" "EXP-20260101-9999" 9999
    (by decide) (by decide)

-- ---------------------------------------------------------------------------
-- C4: the sequence past 9999
-- ---------------------------------------------------------------------------

/-- C4. On the store already holding 9999 and 10000 for the day's key, the
next generated number is "EXP-20260101-10000": it collides with a stored
number, and a second creation right after the first again yields
"EXP-20260101-10000" — consecutive creations do not increase the suffix by
1 once the sequence has passed 9999, because the string-ordered maximum is
"...-9999". -/
theorem c4_rollover_collision :
    generate_expense_number dbRoll 1 "EXP" "20260101" = "EXP-20260101-10000"
    ∧ "EXP-20260101-10000" ∈ dbRoll.map (fun e => e.expense_number)
    ∧ generate_expense_number (dbRoll ++ [rollExp "EXP-20260101-10000"]) 1 "EXP"
        "20260101" = "EXP-20260101-10000" := by decide

-- ---------------------------------------------------------------------------
-- C5: the rounding mode of the derived amounts
-- ---------------------------------------------------------------------------

/-- C5 counterexample. At amount 0.50 and tax_rate 21.00% the exact tax is
0.105: half-up rounding (the claim's mode, `taxHalfUpClaim`) gives 0.11,
but the code's quantize gives 0.10 — the even neighbour. -/
theorem c5_half_up_counterexample :
    calcTax 50 2100 = 10 ∧ taxHalfUpClaim 50 2100 = 11 ∧ (10 : Int) ≠ 11 := by
  decide

/-- C5 amended. For every amount and tax_rate, the derived tax is the exact
value amount * tax_rate / 100 rounded to 2 decimal places to the nearest
representable value (never off by more than half a cent), an exact half
rounds to the even neighbour (banker's rounding, ROUND_HALF_EVEN), and away
from a tie the result is the unique nearest value. -/
theorem c5_round_half_even (a r : Int) :
    (10000 * calcTax a r - a * r).natAbs * 2 ≤ 10000
    ∧ (2 * (a * r % 10000) = 10000 → calcTax a r % 2 = 0)
    ∧ (∀ t : Int, (10000 * t - a * r).natAbs * 2 < 10000 → t = calcTax a r) := by
  unfold calcTax quantizeHalfEven
  refine ⟨?_, ?_, ?_⟩
  · split_ifs with h1 h2 <;> omega
  · intro htie
    split_ifs with h1 h2 h3 <;> omega
  · intro t ht
    split_ifs with h1 h2 h3 <;> omega
